import Mathlib

/-!
Verification development for the `oss_chat` streaming chat client
(`src/oss_chat_python/chat_service.py`).

The client is embedded shallowly: the worker body of
`OllamaChatService.send_message_sync` becomes a pure function from the
service state, the user message, the timestamps the clock would assign,
and an explicit model of the network's behaviour (`NetResult`) to the new
service state together with a trace of observable events (history appends,
callback invocations, the request issued, and writes to the
`_is_generating` flag).  `get_available_models` is embedded likewise over
an explicit model of the metadata-fetch outcome.
-/

namespace OssChat

/-- Message record kept in the conversation history (class `ChatMessage`). -/
structure ChatMessage where
  role : String
  content : String
  timestamp : String
deriving DecidableEq, Repr

/-- Serialisation used when building the request payload
(`ChatMessage.to_dict`): only the role and the content are kept. -/
def ChatMessage.to_dict (m : ChatMessage) : String × String :=
  (m.role, m.content)

/-- JSON body POSTed to `/api/chat` by `send_message_sync`. -/
structure RequestPayload where
  model : String
  messages : List (String × String)
  stream : Bool
deriving DecidableEq, Repr

/-- Mutable state of `OllamaChatService`. -/
structure OllamaChatService where
  host : String
  current_model : Option String
  conversation_history : List ChatMessage
  _is_generating : Bool
deriving DecidableEq, Repr

/-- Python truthiness test `not self.current_model`: the model is missing
when it is `None` or the empty string. -/
def falsy_model : Option String → Bool
  | none => true
  | some m => m = ""

/-- Append a message to the history (`OllamaChatService.add_message`); the
timestamp is the one the local clock would produce. -/
def add_message (s : OllamaChatService) (role content ts : String) :
    OllamaChatService × ChatMessage :=
  let m : ChatMessage := ⟨role, content, ts⟩
  ({ s with conversation_history := s.conversation_history ++ [m] }, m)

/-- Re-seed the history from the configured system prompt
(`OllamaChatService._initialize_with_system_prompt`): if the stripped
prompt is falsy the history becomes empty, otherwise it becomes the single
system message. -/
def init_with_system_prompt (sys_prompt ts : String) (s : OllamaChatService) :
    OllamaChatService :=
  if sys_prompt.trim = "" then { s with conversation_history := [] }
  else { s with conversation_history := [ChatMessage.mk "system" sys_prompt ts] }

/-- `OllamaChatService.clear_conversation` delegates to the system-prompt
re-seeding. -/
def clear_conversation (sys_prompt ts : String) (s : OllamaChatService) :
    OllamaChatService :=
  init_with_system_prompt sys_prompt ts s

/-- One line read from the streamed `/api/chat` response body.
`empty` is a falsy line (skipped by `if not line: continue`),
`malformed` is a line on which `json.loads` raises, and
`parsed message dn` is a decoded JSON object whose optional `message`
field carries the string `message.content` (an absent `content` decodes
to the empty string) and whose `done` field is `dn`. -/
inductive StreamLine where
  | empty : StreamLine
  | malformed : StreamLine
  | parsed (message : Option String) (dn : Bool) : StreamLine
deriving DecidableEq, Repr

/-- One step of the stream-reading loop: either a line is delivered or the
read raises an exception with the given description. -/
inductive StreamEvent where
  | line (l : StreamLine) : StreamEvent
  | raiseExc (desc : String) : StreamEvent
deriving DecidableEq, Repr

/-- Behaviour of the network for one chat request: the connection attempt
raises before any response is obtained, or a response arrives with the
given status code and stream of lines. -/
inductive NetResult where
  | connectError (desc : String) : NetResult
  | resp (status : Nat) (events : List StreamEvent) : NetResult
deriving DecidableEq, Repr

/-- Observable events of one `send_message_sync` turn, in program order. -/
inductive Event where
  | setGen (b : Bool) : Event
  | cb (payload : String) (final : Bool) : Event
  | append (m : ChatMessage) : Event
  | request (p : RequestPayload) : Event
deriving DecidableEq, Repr

/-- Result of the `for line in resp:` loop: the accumulated
`response_content`, the partial-callback events emitted, and the
description of the exception that aborted the loop, if any. -/
structure StreamState where
  response_content : String
  events : List Event
  raised : Option String
deriving DecidableEq, Repr

/-- The stream-reading loop of `send_message_sync`.  Falsy lines and lines
that fail to decode are skipped; a decoded line with non-empty
`message.content` extends the accumulator and emits a partial callback
carrying the whole accumulator; a line with `done` true breaks the loop;
an exception while reading aborts the loop. -/
def processStream : List StreamEvent → String → StreamState
  | [], acc => ⟨acc, [], none⟩
  | StreamEvent.raiseExc d :: _, acc => ⟨acc, [], some d⟩
  | StreamEvent.line StreamLine.empty :: rest, acc => processStream rest acc
  | StreamEvent.line StreamLine.malformed :: rest, acc => processStream rest acc
  | StreamEvent.line (StreamLine.parsed msg dn) :: rest, acc =>
      let step : String × List Event :=
        match msg with
        | none => (acc, [])
        | some c => if c = "" then (acc, []) else (acc ++ c, [Event.cb (acc ++ c) false])
      if dn then ⟨step.1, step.2, none⟩
      else
        let r := processStream rest step.1
        ⟨r.response_content, step.2 ++ r.events, r.raised⟩

/-- Request payload built by `send_message_sync`: the configured model, the
serialised history, and `stream: true`. -/
def build_payload (model : String) (history : List ChatMessage) : RequestPayload :=
  ⟨model, history.map ChatMessage.to_dict, true⟩

/-- The worker body of `OllamaChatService.send_message_sync`, as a function
of the starting state, the user message, the timestamps the clock assigns
to the user and assistant messages, and the network behaviour.  Returns the
final state and the trace of observable events of the turn. -/
def send_message_sync (s : OllamaChatService) (message : String)
    (ts_user ts_assistant : String) (net : NetResult) :
    OllamaChatService × List Event :=
  if falsy_model s.current_model then
    (s, [Event.cb "Error: No model selected" true])
  else
    let model := s.current_model.getD ""
    let userMsg : ChatMessage := ⟨"user", message, ts_user⟩
    let s1 := { s with conversation_history := s.conversation_history ++ [userMsg] }
    let payload := build_payload model s1.conversation_history
    let pre : List Event := [Event.append userMsg, Event.setGen true]
    match net with
    | NetResult.connectError d =>
        ({ s1 with _is_generating := false },
         pre ++ [Event.cb ("Streaming error: " ++ d) true, Event.setGen false])
    | NetResult.resp status events =>
        if status ≠ 200 then
          ({ s1 with _is_generating := false },
           pre ++ [Event.request payload,
                   Event.cb ("Error: Server returned status " ++ toString status) true,
                   Event.setGen false])
        else
          let r := processStream events ""
          match r.raised with
          | some d =>
              ({ s1 with _is_generating := false },
               pre ++ Event.request payload :: r.events
                   ++ [Event.cb ("Streaming error: " ++ d) true, Event.setGen false])
          | none =>
              if r.response_content = "" then
                ({ s1 with _is_generating := false },
                 pre ++ Event.request payload :: r.events
                     ++ [Event.cb "Error: Empty response from model" true, Event.setGen false])
              else
                let aMsg : ChatMessage := ⟨"assistant", r.response_content, ts_assistant⟩
                ({ s1 with
                     conversation_history := s1.conversation_history ++ [aMsg],
                     _is_generating := false },
                 pre ++ Event.request payload :: r.events
                     ++ [Event.append aMsg, Event.cb r.response_content true,
                         Event.setGen false])

/-- Outcome of one metadata fetch in `get_available_models`:
a response whose body decodes to the optional `name` fields of the entries
of the `models` array (`none` body when `json.loads` raises, `none` entry
when the object has no `name` key), or one of the exception paths. -/
inductive FetchResult where
  | success (status : Nat) (body : Option (List (Option String))) : FetchResult
  | httpError (code : Nat) : FetchResult
  | urlError (desc : String) : FetchResult
  | otherError (desc : String) : FetchResult
deriving DecidableEq, Repr

/-- Hard-coded fallback list returned on every failure path of
`get_available_models`. -/
def fallback_models : List String := ["llama3.2", "llama2", "mistral"]

/-- Evaluate `[model["name"] for model in ...]`: a missing `name` key
raises `KeyError`, modelled as `none`. -/
def extract_names : List (Option String) → Option (List String)
  | [] => some []
  | none :: _ => none
  | some n :: rest => (extract_names rest).map (n :: ·)

/-- `OllamaChatService.get_available_models` as a function of the fetch
outcome. -/
def get_available_models : FetchResult → List String
  | FetchResult.success status body =>
      if status = 200 then
        match body with
        | none => fallback_models
        | some entries =>
            match extract_names entries with
            | some names => names
            | none => fallback_models
      else fallback_models
  | FetchResult.httpError _ => fallback_models
  | FetchResult.urlError _ => fallback_models
  | FetchResult.otherError _ => fallback_models

/-- Callback invocations of a trace, in order. -/
def cbEvents (tr : List Event) : List (String × Bool) :=
  tr.filterMap fun e =>
    match e with
    | Event.cb p f => some (p, f)
    | _ => none

/-- Request payloads issued in a trace. -/
def requestEvents (tr : List Event) : List RequestPayload :=
  tr.filterMap fun e =>
    match e with
    | Event.request p => some p
    | _ => none

/-- History appends of a trace. -/
def appendEvents (tr : List Event) : List ChatMessage :=
  tr.filterMap fun e =>
    match e with
    | Event.append m => some m
    | _ => none

/-- Value of the `_is_generating` flag after a trace, starting from `g0`. -/
def genAfter (g0 : Bool) (tr : List Event) : Bool :=
  tr.foldl (fun g e => match e with | Event.setGen b => b | _ => g) g0

/-- String prefix relation, on the underlying character lists. -/
def StrPrefix (a b : String) : Prop :=
  List.IsPrefix a.data b.data

instance : ∀ a b : String, Decidable (StrPrefix a b) := fun a b =>
  inferInstanceAs (Decidable (List.IsPrefix a.data b.data))

/-- Inputs of one turn, for sequencing several turns. -/
structure TurnInput where
  message : String
  ts_user : String
  ts_assistant : String
  net : NetResult
deriving DecidableEq, Repr

/-- Run a sequence of turns, each starting strictly after the previous
turn has delivered its terminal callback. -/
def runTurns (s : OllamaChatService) : List TurnInput → OllamaChatService
  | [] => s
  | i :: rest => runTurns (send_message_sync s i.message i.ts_user i.ts_assistant i.net).1 rest

/-- A turn's stream outcome is a success when the response has status 200,
the loop is not aborted by an exception, and the accumulated content is
non-empty. -/
def turn_success (net : NetResult) : Bool :=
  match net with
  | NetResult.connectError _ => false
  | NetResult.resp status events =>
      status = 200 &&
        (let r := processStream events ""
         r.raised.isNone && r.response_content != "")

/-- Messages a turn appends to the history, when a model is configured. -/
def turn_appends (i : TurnInput) : List ChatMessage :=
  let u : ChatMessage := ⟨"user", i.message, i.ts_user⟩
  match i.net with
  | NetResult.connectError _ => [u]
  | NetResult.resp status events =>
      if status ≠ 200 then [u]
      else
        let r := processStream events ""
        match r.raised with
        | some _ => [u]
        | none =>
            if r.response_content = "" then [u]
            else [u, ⟨"assistant", r.response_content, i.ts_assistant⟩]

/-- Scenario 6 of the spec: streamed lines `Hel`, `lo`, then `done` produce
the callbacks `("Hel", false)`, `("Hello", false)`, `("Hello", true)`. -/
theorem scenario_hello :
    cbEvents (send_message_sync ⟨"h", some "m", [], false⟩ "hi" "t1" "t2"
      (NetResult.resp 200
        [StreamEvent.line (StreamLine.parsed (some "Hel") false),
         StreamEvent.line (StreamLine.parsed (some "lo") false),
         StreamEvent.line (StreamLine.parsed none true)])).2
      = [("Hel", false), ("Hello", false), ("Hello", true)] := by decide

/-- Scenario 7 of the spec: a stream consisting of `done` alone ends the
turn with the empty-response error and stores no assistant message. -/
theorem scenario_empty :
    (send_message_sync ⟨"h", some "m", [], false⟩ "hi" "t1" "t2"
      (NetResult.resp 200 [StreamEvent.line (StreamLine.parsed none true)])).2
      = [Event.append ⟨"user", "hi", "t1"⟩, Event.setGen true,
         Event.request ⟨"m", [("user", "hi")], true⟩,
         Event.cb "Error: Empty response from model" true, Event.setGen false] := by decide

/-! ### String-prefix facts -/

theorem strPrefix_refl (a : String) : StrPrefix a a :=
  List.prefix_refl _

theorem strPrefix_trans {a b c : String} (h1 : StrPrefix a b) (h2 : StrPrefix b c) :
    StrPrefix a c :=
  List.IsPrefix.trans h1 h2

theorem string_data_append (a b : String) : (a ++ b).data = a.data ++ b.data :=
  rfl

theorem strPrefix_append (a c : String) : StrPrefix a (a ++ c) :=
  ⟨c.data, (string_data_append a c).symm⟩

theorem string_append_ne_empty {c : String} (a : String) (h : c ≠ "") : a ++ c ≠ "" := by
  intro hc
  apply h
  have hd : (a ++ c).data = ([] : List Char) := congrArg String.data hc
  rw [string_data_append] at hd
  exact String.ext (List.append_eq_nil.mp hd).2

/-! ### Trace-extractor lemmas -/

theorem cbEvents_nil : cbEvents [] = [] := rfl

theorem cbEvents_append (t1 t2 : List Event) :
    cbEvents (t1 ++ t2) = cbEvents t1 ++ cbEvents t2 :=
  List.filterMap_append t1 t2 _

theorem cbEvents_cons_cb (p : String) (f : Bool) (tr : List Event) :
    cbEvents (Event.cb p f :: tr) = (p, f) :: cbEvents tr := rfl

theorem cbEvents_cons_setGen (b : Bool) (tr : List Event) :
    cbEvents (Event.setGen b :: tr) = cbEvents tr := rfl

theorem cbEvents_cons_append (m : ChatMessage) (tr : List Event) :
    cbEvents (Event.append m :: tr) = cbEvents tr := rfl

theorem cbEvents_cons_request (p : RequestPayload) (tr : List Event) :
    cbEvents (Event.request p :: tr) = cbEvents tr := rfl

theorem cbEvents_map_cb (ps : List String) :
    cbEvents (ps.map fun p => Event.cb p false) = ps.map fun p => (p, false) := by
  induction ps with
  | nil => rfl
  | cons p ps ih => simpa [cbEvents_cons_cb] using ih

theorem requestEvents_nil : requestEvents [] = [] := rfl

theorem requestEvents_append (t1 t2 : List Event) :
    requestEvents (t1 ++ t2) = requestEvents t1 ++ requestEvents t2 :=
  List.filterMap_append t1 t2 _

theorem requestEvents_cons_cb (p : String) (f : Bool) (tr : List Event) :
    requestEvents (Event.cb p f :: tr) = requestEvents tr := rfl

theorem requestEvents_cons_setGen (b : Bool) (tr : List Event) :
    requestEvents (Event.setGen b :: tr) = requestEvents tr := rfl

theorem requestEvents_cons_append (m : ChatMessage) (tr : List Event) :
    requestEvents (Event.append m :: tr) = requestEvents tr := rfl

theorem requestEvents_cons_request (p : RequestPayload) (tr : List Event) :
    requestEvents (Event.request p :: tr) = p :: requestEvents tr := rfl

theorem requestEvents_map_cb (ps : List String) :
    requestEvents (ps.map fun p => Event.cb p false) = [] := by
  induction ps with
  | nil => rfl
  | cons p ps ih => simpa [requestEvents_cons_cb] using ih

theorem appendEvents_nil : appendEvents [] = [] := rfl

theorem appendEvents_append (t1 t2 : List Event) :
    appendEvents (t1 ++ t2) = appendEvents t1 ++ appendEvents t2 :=
  List.filterMap_append t1 t2 _

theorem appendEvents_cons_cb (p : String) (f : Bool) (tr : List Event) :
    appendEvents (Event.cb p f :: tr) = appendEvents tr := rfl

theorem appendEvents_cons_setGen (b : Bool) (tr : List Event) :
    appendEvents (Event.setGen b :: tr) = appendEvents tr := rfl

theorem appendEvents_cons_append (m : ChatMessage) (tr : List Event) :
    appendEvents (Event.append m :: tr) = m :: appendEvents tr := rfl

theorem appendEvents_cons_request (p : RequestPayload) (tr : List Event) :
    appendEvents (Event.request p :: tr) = appendEvents tr := rfl

theorem appendEvents_map_cb (ps : List String) :
    appendEvents (ps.map fun p => Event.cb p false) = [] := by
  induction ps with
  | nil => rfl
  | cons p ps ih => simpa [appendEvents_cons_cb] using ih

theorem genAfter_nil (g0 : Bool) : genAfter g0 [] = g0 := rfl

theorem genAfter_append (g0 : Bool) (t1 t2 : List Event) :
    genAfter g0 (t1 ++ t2) = genAfter (genAfter g0 t1) t2 :=
  List.foldl_append _ _ t1 t2

theorem genAfter_cons_setGen (g0 b : Bool) (tr : List Event) :
    genAfter g0 (Event.setGen b :: tr) = genAfter b tr := rfl

theorem genAfter_cons_cb (g0 : Bool) (p : String) (f : Bool) (tr : List Event) :
    genAfter g0 (Event.cb p f :: tr) = genAfter g0 tr := rfl

theorem genAfter_cons_append (g0 : Bool) (m : ChatMessage) (tr : List Event) :
    genAfter g0 (Event.append m :: tr) = genAfter g0 tr := rfl

theorem genAfter_cons_request (g0 : Bool) (p : RequestPayload) (tr : List Event) :
    genAfter g0 (Event.request p :: tr) = genAfter g0 tr := rfl

theorem genAfter_map_cb (g0 : Bool) (ps : List String) :
    genAfter g0 (ps.map fun p => Event.cb p false) = g0 := by
  induction ps with
  | nil => rfl
  | cons p ps ih => simpa [genAfter_cons_cb] using ih

/-! ### Structure of the stream-processing loop -/

theorem processStream_spec (events : List StreamEvent) (acc : String) :
    ∃ ps : List String,
      (processStream events acc).events = ps.map (fun p => Event.cb p false) ∧
      List.Chain' StrPrefix (acc :: ps) ∧
      StrPrefix acc (processStream events acc).response_content ∧
      (∀ p ∈ ps, StrPrefix p (processStream events acc).response_content) ∧
      (∀ p ∈ ps, p ≠ "") := by
  induction events generalizing acc with
  | nil =>
      exact ⟨[], rfl, List.chain'_singleton _, strPrefix_refl acc, by simp, by simp⟩
  | cons e rest ih =>
      cases e with
      | raiseExc d =>
          exact ⟨[], rfl, List.chain'_singleton _, strPrefix_refl acc, by simp, by simp⟩
      | line l =>
          cases l with
          | empty => exact ih acc
          | malformed => exact ih acc
          | parsed msg dn =>
              cases msg with
              | none =>
                  cases dn with
                  | true =>
                      exact ⟨[], rfl, List.chain'_singleton _, strPrefix_refl acc,
                        by simp, by simp⟩
                  | false =>
                      exact ih acc
              | some c =>
                  by_cases hc : c = ""
                  · subst hc
                    cases dn with
                    | true =>
                        exact ⟨[], rfl, List.chain'_singleton _, strPrefix_refl acc,
                          by simp, by simp⟩
                    | false =>
                        exact ih acc
                  · cases dn with
                    | true =>
                        refine ⟨[acc ++ c], ?_, ?_, ?_, ?_, ?_⟩
                        · show (processStream (StreamEvent.line
                              (StreamLine.parsed (some c) true) :: rest) acc).events = _
                          simp only [processStream, if_neg hc]
                          rfl
                        · exact List.chain'_cons.mpr
                            ⟨strPrefix_append acc c, List.chain'_singleton _⟩
                        · show StrPrefix acc (processStream (StreamEvent.line
                              (StreamLine.parsed (some c) true) :: rest) acc).response_content
                          simp only [processStream, if_neg hc]
                          exact strPrefix_append acc c
                        · intro p hp
                          rw [List.mem_singleton] at hp
                          subst hp
                          show StrPrefix (acc ++ c) (processStream (StreamEvent.line
                              (StreamLine.parsed (some c) true) :: rest) acc).response_content
                          simp only [processStream, if_neg hc]
                          exact strPrefix_refl _
                        · intro p hp
                          rw [List.mem_singleton] at hp
                          subst hp
                          exact string_append_ne_empty acc hc
                    | false =>
                        obtain ⟨ps, h1, h2, h3, h4, h5⟩ := ih (acc ++ c)
                        refine ⟨(acc ++ c) :: ps, ?_, ?_, ?_, ?_, ?_⟩
                        · show (processStream (StreamEvent.line
                              (StreamLine.parsed (some c) false) :: rest) acc).events = _
                          simp only [processStream, if_neg hc]
                          simpa using h1
                        · exact List.chain'_cons.mpr ⟨strPrefix_append acc c, h2⟩
                        · show StrPrefix acc (processStream (StreamEvent.line
                              (StreamLine.parsed (some c) false) :: rest) acc).response_content
                          simp only [processStream, if_neg hc]
                          exact strPrefix_trans (strPrefix_append acc c) h3
                        · intro p hp
                          show StrPrefix p (processStream (StreamEvent.line
                              (StreamLine.parsed (some c) false) :: rest) acc).response_content
                          simp only [processStream, if_neg hc]
                          rcases List.mem_cons.mp hp with hp | hp
                          · subst hp; exact h3
                          · exact h4 p hp
                        · intro p hp
                          rcases List.mem_cons.mp hp with hp | hp
                          · subst hp; exact string_append_ne_empty acc hc
                          · exact h5 p hp

/-! ### Branch equations for one turn -/

theorem send_eq_noModel (s : OllamaChatService) (message tu ta : String) (net : NetResult)
    (h : falsy_model s.current_model = true) :
    send_message_sync s message tu ta net
      = (s, [Event.cb "Error: No model selected" true]) := by
  simp [send_message_sync, h]

theorem send_eq_connectError (s : OllamaChatService) (message tu ta d : String)
    (h : falsy_model s.current_model = false) :
    send_message_sync s message tu ta (NetResult.connectError d)
      = ({ s with
             conversation_history := s.conversation_history ++ [⟨"user", message, tu⟩],
             _is_generating := false },
         [Event.append ⟨"user", message, tu⟩, Event.setGen true,
          Event.cb ("Streaming error: " ++ d) true, Event.setGen false]) := by
  simp [send_message_sync, h]

theorem send_eq_status (s : OllamaChatService) (message tu ta : String) (status : Nat)
    (events : List StreamEvent) (h : falsy_model s.current_model = false)
    (hst : status ≠ 200) :
    send_message_sync s message tu ta (NetResult.resp status events)
      = ({ s with
             conversation_history := s.conversation_history ++ [⟨"user", message, tu⟩],
             _is_generating := false },
         [Event.append ⟨"user", message, tu⟩, Event.setGen true,
          Event.request (build_payload (s.current_model.getD "")
            (s.conversation_history ++ [⟨"user", message, tu⟩])),
          Event.cb ("Error: Server returned status " ++ toString status) true,
          Event.setGen false]) := by
  simp [send_message_sync, h, hst]

theorem send_eq_raised (s : OllamaChatService) (message tu ta d : String)
    (events : List StreamEvent) (h : falsy_model s.current_model = false)
    (hr : (processStream events "").raised = some d) :
    send_message_sync s message tu ta (NetResult.resp 200 events)
      = ({ s with
             conversation_history := s.conversation_history ++ [⟨"user", message, tu⟩],
             _is_generating := false },
         Event.append ⟨"user", message, tu⟩ :: Event.setGen true ::
          Event.request (build_payload (s.current_model.getD "")
            (s.conversation_history ++ [⟨"user", message, tu⟩]))
          :: (processStream events "").events
          ++ [Event.cb ("Streaming error: " ++ d) true, Event.setGen false]) := by
  simp [send_message_sync, h, hr]

theorem send_eq_empty (s : OllamaChatService) (message tu ta : String)
    (events : List StreamEvent) (h : falsy_model s.current_model = false)
    (hr : (processStream events "").raised = none)
    (he : (processStream events "").response_content = "") :
    send_message_sync s message tu ta (NetResult.resp 200 events)
      = ({ s with
             conversation_history := s.conversation_history ++ [⟨"user", message, tu⟩],
             _is_generating := false },
         Event.append ⟨"user", message, tu⟩ :: Event.setGen true ::
          Event.request (build_payload (s.current_model.getD "")
            (s.conversation_history ++ [⟨"user", message, tu⟩]))
          :: (processStream events "").events
          ++ [Event.cb "Error: Empty response from model" true, Event.setGen false]) := by
  simp [send_message_sync, h, hr, he]

theorem send_eq_ok (s : OllamaChatService) (message tu ta : String)
    (events : List StreamEvent) (h : falsy_model s.current_model = false)
    (hr : (processStream events "").raised = none)
    (hne : (processStream events "").response_content ≠ "") :
    send_message_sync s message tu ta (NetResult.resp 200 events)
      = ({ s with
             conversation_history := s.conversation_history ++ [⟨"user", message, tu⟩]
               ++ [⟨"assistant", (processStream events "").response_content, ta⟩],
             _is_generating := false },
         Event.append ⟨"user", message, tu⟩ :: Event.setGen true ::
          Event.request (build_payload (s.current_model.getD "")
            (s.conversation_history ++ [⟨"user", message, tu⟩]))
          :: (processStream events "").events
          ++ [Event.append ⟨"assistant", (processStream events "").response_content, ta⟩,
              Event.cb (processStream events "").response_content true,
              Event.setGen false]) := by
  simp [send_message_sync, h, hr, hne]

/-! ### Claim C3: no configured model -/

/-- C3: if `current_model` is unset when `send_message_sync` runs, the
callback is invoked exactly once with `("Error: No model selected", final=true)`,
the state (hence the history) is unchanged, and no append or request event
occurs. -/
theorem no_model_rejected (s : OllamaChatService) (message tu ta : String)
    (net : NetResult) (h : s.current_model = none) :
    send_message_sync s message tu ta net
        = (s, [Event.cb "Error: No model selected" true]) ∧
    (send_message_sync s message tu ta net).1.conversation_history
        = s.conversation_history ∧
    appendEvents (send_message_sync s message tu ta net).2 = [] ∧
    requestEvents (send_message_sync s message tu ta net).2 = [] ∧
    cbEvents (send_message_sync s message tu ta net).2
        = [("Error: No model selected", true)] := by
  have hf : falsy_model s.current_model = true := by rw [h]; rfl
  rw [send_eq_noModel s message tu ta net hf]
  exact ⟨rfl, rfl, rfl, rfl, rfl⟩

/-- Witness for C3 at a concrete service state with no model configured. -/
theorem no_model_rejected_witness :
    send_message_sync ⟨"http://localhost:11434", none, [], false⟩ "hi" "t1" "t2"
        (NetResult.resp 200 [])
      = (⟨"http://localhost:11434", none, [], false⟩,
         [Event.cb "Error: No model selected" true]) :=
  (no_model_rejected ⟨"http://localhost:11434", none, [], false⟩ "hi" "t1" "t2"
    (NetResult.resp 200 []) rfl).1

/-! ### Claim C8: clearing the conversation -/

/-- C8: after `clear_conversation` the history is empty exactly when the
stripped system prompt is blank, and otherwise is the single system
message; in particular it never has more than one message and every
message in it has role `"system"`. -/
theorem clear_conversation_spec (sys_prompt ts : String) (s : OllamaChatService) :
    (clear_conversation sys_prompt ts s).conversation_history
        = (if sys_prompt.trim = "" then []
           else [ChatMessage.mk "system" sys_prompt ts]) ∧
    (clear_conversation sys_prompt ts s).conversation_history.length ≤ 1 ∧
    (clear_conversation sys_prompt ts s).conversation_history.all
        (fun m => m.role == "system") = true := by
  unfold clear_conversation init_with_system_prompt
  by_cases hp : sys_prompt.trim = "" <;> simp [hp]

/-! ### Claim C6: malformed stream lines are skipped -/

theorem processStream_cons_parsed_false (msg : Option String)
    (rest : List StreamEvent) (acc : String) :
    processStream (StreamEvent.line (StreamLine.parsed msg false) :: rest) acc
      = (let step : String × List Event :=
           match msg with
           | none => (acc, [])
           | some c => if c = "" then (acc, []) else (acc ++ c, [Event.cb (acc ++ c) false]);
         let r := processStream rest step.1
         ⟨r.response_content, step.2 ++ r.events, r.raised⟩) := rfl

theorem processStream_skip_malformed (pre post : List StreamEvent) (acc : String) :
    processStream (pre ++ StreamEvent.line StreamLine.malformed :: post) acc
      = processStream (pre ++ post) acc := by
  induction pre generalizing acc with
  | nil => rfl
  | cons e rest ih =>
      cases e with
      | raiseExc d => rfl
      | line l =>
          cases l with
          | empty => exact ih acc
          | malformed => exact ih acc
          | parsed msg dn =>
              cases dn with
              | true => rfl
              | false =>
                  simp only [List.cons_append, processStream_cons_parsed_false, ih]

/-- C6: a malformed line anywhere in the stream is skipped: the whole turn
(resulting state and full event trace, hence callbacks and accumulated
text) is identical to the turn on the same stream without that line, for
every response status. -/
theorem malformed_line_skipped (s : OllamaChatService) (message tu ta : String)
    (status : Nat) (pre post : List StreamEvent) :
    send_message_sync s message tu ta
        (NetResult.resp status (pre ++ StreamEvent.line StreamLine.malformed :: post))
      = send_message_sync s message tu ta (NetResult.resp status (pre ++ post)) := by
  simp only [send_message_sync, processStream_skip_malformed]

/-! ### Claim C7: model listing -/

theorem extract_names_map_some (names : List String) :
    extract_names (names.map some) = some names := by
  induction names with
  | nil => rfl
  | cons n rest ih => simp [extract_names, ih]

/-- C7: `get_available_models` returns the fixed three-entry fallback list
on every failure path (non-success status, HTTP error, URL error, JSON
decode failure, missing `name` key), and on success returns the advertised
model names in the host's order. -/
theorem list_models_spec :
    (∀ code, get_available_models (FetchResult.httpError code) = fallback_models) ∧
    (∀ d, get_available_models (FetchResult.urlError d) = fallback_models) ∧
    (∀ d, get_available_models (FetchResult.otherError d) = fallback_models) ∧
    (∀ status body, status ≠ 200 →
        get_available_models (FetchResult.success status body) = fallback_models) ∧
    get_available_models (FetchResult.success 200 none) = fallback_models ∧
    (∀ entries, extract_names entries = none →
        get_available_models (FetchResult.success 200 (some entries)) = fallback_models) ∧
    fallback_models.length = 3 ∧
    (∀ names : List String,
        get_available_models (FetchResult.success 200 (some (names.map some))) = names) := by
  refine ⟨fun _ => rfl, fun _ => rfl, fun _ => rfl, ?_, rfl, ?_, rfl, ?_⟩
  · intro status body hst
    simp [get_available_models, hst]
  · intro entries he
    simp [get_available_models, he]
  · intro names
    simp [get_available_models, extract_names_map_some]

/-- Witness for C7: a simulated HTTP 500 yields the fallback list, a
missing `name` key yields the fallback list, and a healthy host's names
come back in order. -/
theorem list_models_spec_witness :
    get_available_models (FetchResult.success 500 (some [])) = fallback_models ∧
    get_available_models (FetchResult.success 200 (some [none])) = fallback_models ∧
    get_available_models (FetchResult.success 200 (some [some "a", some "b"]))
      = ["a", "b"] :=
  ⟨list_models_spec.2.2.2.1 500 (some []) (by decide),
   list_models_spec.2.2.2.2.2.1 [none] rfl,
   list_models_spec.2.2.2.2.2.2.2 ["a", "b"]⟩

/-! ### Claim C2: history growth over sequential turns -/

theorem send_history_append (s : OllamaChatService) (i : TurnInput)
    (h : falsy_model s.current_model = false) :
    (send_message_sync s i.message i.ts_user i.ts_assistant i.net).1.conversation_history
        = s.conversation_history ++ turn_appends i ∧
    (send_message_sync s i.message i.ts_user i.ts_assistant i.net).1.current_model
        = s.current_model := by
  obtain ⟨message, tu, ta, net⟩ := i
  cases net with
  | connectError d =>
      rw [send_eq_connectError s message tu ta d h]
      exact ⟨rfl, rfl⟩
  | resp status events =>
      by_cases hst : status = 200
      · subst hst
        rcases hraised : (processStream events "").raised with _ | d
        · by_cases he : (processStream events "").response_content = ""
          · rw [send_eq_empty s message tu ta events h hraised he]
            refine ⟨?_, rfl⟩
            simp [turn_appends, hraised, he]
          · rw [send_eq_ok s message tu ta events h hraised he]
            refine ⟨?_, rfl⟩
            simp [turn_appends, hraised, he]
        · rw [send_eq_raised s message tu ta d events h hraised]
          refine ⟨?_, rfl⟩
          simp [turn_appends, hraised]
      · rw [send_eq_status s message tu ta status events h hst]
        refine ⟨?_, rfl⟩
        simp [turn_appends, hst]

theorem turn_appends_length (i : TurnInput) :
    (turn_appends i).length = if turn_success i.net then 2 else 1 := by
  obtain ⟨message, tu, ta, net⟩ := i
  cases net with
  | connectError d => rfl
  | resp status events =>
      by_cases hst : status = 200
      · subst hst
        rcases hraised : (processStream events "").raised with _ | d
        · by_cases he : (processStream events "").response_content = ""
          · simp [turn_appends, turn_success, hraised, he]
          · simp [turn_appends, turn_success, hraised, he]
        · simp [turn_appends, turn_success, hraised]
      · simp [turn_appends, turn_success, hst]

theorem runTurns_history (inputs : List TurnInput) (s : OllamaChatService)
    (h : falsy_model s.current_model = false) :
    (runTurns s inputs).conversation_history
        = s.conversation_history ++ inputs.flatMap turn_appends ∧
    (runTurns s inputs).current_model = s.current_model := by
  induction inputs generalizing s with
  | nil => exact ⟨by simp [runTurns], rfl⟩
  | cons i rest ih =>
      obtain ⟨hh, hm⟩ := send_history_append s i h
      have h' : falsy_model
          (send_message_sync s i.message i.ts_user i.ts_assistant i.net).1.current_model
          = false := by rw [hm]; exact h
      obtain ⟨ih1, ih2⟩ := ih _ h'
      refine ⟨?_, by rw [runTurns, ih2, hm]⟩
      rw [runTurns, ih1, hh, List.flatMap_cons, List.append_assoc]

theorem flatMap_turn_appends_length (inputs : List TurnInput) :
    (inputs.flatMap turn_appends).length
      = (inputs.map fun i => if turn_success i.net then 2 else 1).sum := by
  induction inputs with
  | nil => rfl
  | cons i rest ih =>
      rw [List.flatMap_cons, List.map_cons, List.length_append, ih, List.sum_cons,
        turn_appends_length]

/-- C2: over any sequence of turns run back-to-back (each starting after
the previous turn's terminal callback) with a model configured, the
history gains exactly the user message for a failed turn and exactly the
user message followed by the assistant message for a successful turn, so
its length grows by 2 per successful turn and 1 per failed turn; no error
text is ever stored. -/
theorem history_growth (s : OllamaChatService) (inputs : List TurnInput)
    (h : falsy_model s.current_model = false) :
    (runTurns s inputs).conversation_history
        = s.conversation_history ++ inputs.flatMap turn_appends ∧
    (runTurns s inputs).conversation_history.length
        = s.conversation_history.length
          + ((inputs.map fun i => if turn_success i.net then 2 else 1).sum) := by
  obtain ⟨h1, -⟩ := runTurns_history inputs s h
  refine ⟨h1, ?_⟩
  rw [h1, List.length_append, flatMap_turn_appends_length]

/-- Witness for C2: two back-to-back turns, one successful and one failed,
grow a one-message history to length 1 + 2 + 1 = 4. -/
theorem history_growth_witness :
    (runTurns ⟨"h", some "m", [⟨"system", "p", "t0"⟩], false⟩
        [⟨"hi", "t1", "t2",
          NetResult.resp 200 [StreamEvent.line (StreamLine.parsed (some "Hi") true)]⟩,
         ⟨"again", "t3", "t4", NetResult.connectError "down"⟩]).conversation_history.length
      = 1 + ((([⟨"hi", "t1", "t2",
            NetResult.resp 200 [StreamEvent.line (StreamLine.parsed (some "Hi") true)]⟩,
           ⟨"again", "t3", "t4", NetResult.connectError "down"⟩] : List TurnInput).map
            fun i => if turn_success i.net then 2 else 1).sum) :=
  (history_growth ⟨"h", some "m", [⟨"system", "p", "t0"⟩], false⟩
    [⟨"hi", "t1", "t2",
      NetResult.resp 200 [StreamEvent.line (StreamLine.parsed (some "Hi") true)]⟩,
     ⟨"again", "t3", "t4", NetResult.connectError "down"⟩] rfl).2

/-! ### Shape of the callback sequence of one turn -/

theorem str_prefix_empty {p : String} (h : StrPrefix p "") : p = "" :=
  String.ext (List.prefix_nil.mp h)

theorem cbEvents_turn_shape (s : OllamaChatService) (message tu ta : String)
    (net : NetResult) :
    ∃ ps lastp,
      cbEvents (send_message_sync s message tu ta net).2
          = (ps.map fun p => (p, false)) ++ [(lastp, true)] ∧
      List.Chain' StrPrefix ps ∧
      (∀ p ∈ ps, p ≠ "") ∧
      (turn_success net = true → ∀ p ∈ ps, StrPrefix p lastp) := by
  cases hfm : falsy_model s.current_model with
  | true =>
      rw [send_eq_noModel s message tu ta net hfm]
      exact ⟨[], "Error: No model selected", rfl, List.chain'_nil, by simp, by simp⟩
  | false =>
      cases net with
      | connectError d =>
          rw [send_eq_connectError s message tu ta d hfm]
          refine ⟨[], "Streaming error: " ++ d, rfl, List.chain'_nil, by simp, ?_⟩
          intro hsucc
          simp [turn_success] at hsucc
      | resp status events =>
          by_cases hst : status = 200
          · subst hst
            obtain ⟨ps, hev, hchain, hacc, hpref, hne⟩ := processStream_spec events ""
            rcases hraised : (processStream events "").raised with _ | d
            · by_cases he : (processStream events "").response_content = ""
              · have hps : ps = [] := by
                  cases ps with
                  | nil => rfl
                  | cons p ps' =>
                      exfalso
                      have h1 := hpref p (List.mem_cons_self _ _)
                      rw [he] at h1
                      exact hne p (List.mem_cons_self _ _) (str_prefix_empty h1)
                subst hps
                rw [send_eq_empty s message tu ta events hfm hraised he]
                refine ⟨[], "Error: Empty response from model", ?_, List.chain'_nil,
                  by simp, by simp⟩
                simp [cbEvents_cons_append, cbEvents_cons_setGen, cbEvents_cons_request,
                  cbEvents_append, cbEvents_cons_cb, cbEvents_nil, hev]
              · rw [send_eq_ok s message tu ta events hfm hraised he]
                refine ⟨ps, (processStream events "").response_content, ?_, hchain.tail,
                  hne, fun _ => hpref⟩
                simp [cbEvents_cons_append, cbEvents_cons_setGen, cbEvents_cons_request,
                  cbEvents_append, cbEvents_cons_cb, cbEvents_nil, hev, cbEvents_map_cb]
            · rw [send_eq_raised s message tu ta d events hfm hraised]
              refine ⟨ps, "Streaming error: " ++ d, ?_, hchain.tail, hne, ?_⟩
              · simp [cbEvents_cons_append, cbEvents_cons_setGen, cbEvents_cons_request,
                  cbEvents_append, cbEvents_cons_cb, cbEvents_nil, hev, cbEvents_map_cb]
              · intro hsucc
                simp [turn_success, hraised] at hsucc
          · rw [send_eq_status s message tu ta status events hfm hst]
            refine ⟨[], "Error: Server returned status " ++ toString status, rfl,
              List.chain'_nil, by simp, by simp⟩

/-! ### Claim C9: partial callbacks carry non-empty payloads -/

/-- C9: every non-final callback of a turn carries a non-empty payload. -/
theorem partial_payload_nonempty (s : OllamaChatService) (message tu ta : String)
    (net : NetResult) (p : String)
    (hp : (p, false) ∈ cbEvents (send_message_sync s message tu ta net).2) :
    p ≠ "" := by
  obtain ⟨ps, lastp, heq, -, hne, -⟩ := cbEvents_turn_shape s message tu ta net
  rw [heq] at hp
  rcases List.mem_append.mp hp with hp | hp
  · obtain ⟨q, hq, hqe⟩ := List.mem_map.mp hp
    have hqp : q = p := congrArg Prod.fst hqe
    subst hqp
    exact hne q hq
  · rw [List.mem_singleton] at hp
    have hb : (false : Bool) = true := congrArg Prod.snd hp
    exact absurd hb (by decide)

/-- Witness for C9 at a concrete turn that emits the partial `("Hi", false)`. -/
theorem partial_payload_nonempty_witness : ("Hi" : String) ≠ "" :=
  partial_payload_nonempty ⟨"h", some "m", [], false⟩ "hi" "t1" "t2"
    (NetResult.resp 200
      [StreamEvent.line (StreamLine.parsed (some "Hi") false),
       StreamEvent.line (StreamLine.parsed none true)]) "Hi" (by decide)

/-! ### Claim C1: callback ordering (corrected) -/

/-- Counterexample to C1 as stated: a transport error arriving after a
partial update yields a final payload that does not extend the partial, so
a non-final callback's payload need not be a prefix of the next (final)
callback's payload. -/
theorem callback_prefix_counterexample :
    cbEvents (send_message_sync ⟨"h", some "m", [], false⟩ "hi" "t1" "t2"
        (NetResult.resp 200
          [StreamEvent.line (StreamLine.parsed (some "Hi") false),
           StreamEvent.raiseExc "boom"])).2
      = [("Hi", false), ("Streaming error: boom", true)] ∧
    ¬ StrPrefix "Hi" "Streaming error: boom" := by
  constructor
  · decide
  · decide

/-- C1 (amended): within one turn the callbacks are zero or more non-final
ones followed by exactly one final one; consecutive non-final payloads are
related by string prefix; and when the stream outcome is a success (so the
terminal callback carries the accumulated text), every non-final payload
is a prefix of the final payload.  On a transport-error turn the terminal
error text need not extend the partial payloads. -/
theorem callback_stream_order (s : OllamaChatService) (message tu ta : String)
    (net : NetResult) :
    ∃ ps lastp,
      cbEvents (send_message_sync s message tu ta net).2
          = (ps.map fun p => (p, false)) ++ [(lastp, true)] ∧
      List.Chain' StrPrefix ps ∧
      (turn_success net = true → ∀ p ∈ ps, StrPrefix p lastp) := by
  obtain ⟨ps, lastp, h1, h2, -, h4⟩ := cbEvents_turn_shape s message tu ta net
  exact ⟨ps, lastp, h1, h2, h4⟩

/-- Witness for C1 (amended) at the two-chunk success scenario. -/
theorem callback_stream_order_witness :
    ∃ ps lastp,
      cbEvents (send_message_sync ⟨"h", some "m", [], false⟩ "hi" "t1" "t2"
          (NetResult.resp 200
            [StreamEvent.line (StreamLine.parsed (some "Hel") false),
             StreamEvent.line (StreamLine.parsed (some "lo") false),
             StreamEvent.line (StreamLine.parsed none true)])).2
          = (ps.map fun p => (p, false)) ++ [(lastp, true)] ∧
      List.Chain' StrPrefix ps ∧
      (turn_success (NetResult.resp 200
            [StreamEvent.line (StreamLine.parsed (some "Hel") false),
             StreamEvent.line (StreamLine.parsed (some "lo") false),
             StreamEvent.line (StreamLine.parsed none true)]) = true →
         ∀ p ∈ ps, StrPrefix p lastp) :=
  callback_stream_order ⟨"h", some "m", [], false⟩ "hi" "t1" "t2"
    (NetResult.resp 200
      [StreamEvent.line (StreamLine.parsed (some "Hel") false),
       StreamEvent.line (StreamLine.parsed (some "lo") false),
       StreamEvent.line (StreamLine.parsed none true)])

/-! ### Claim C4: stream completion -/

/-- C4: when the stream completes (status 200 and no exception) with empty
accumulated text, the turn ends with the terminal callback
`("Error: Empty response from model", true)` and appends no assistant
message; with non-empty accumulated text it appends one assistant message
whose content is the accumulated text and then delivers the terminal
callback with that full text. -/
theorem stream_completion_spec (s : OllamaChatService) (message tu ta : String)
    (events : List StreamEvent)
    (h : falsy_model s.current_model = false)
    (hr : (processStream events "").raised = none) :
    ((processStream events "").response_content = "" →
       (∃ pre, (send_message_sync s message tu ta (NetResult.resp 200 events)).2
           = pre ++ [Event.cb "Error: Empty response from model" true,
                     Event.setGen false]) ∧
       (send_message_sync s message tu ta (NetResult.resp 200 events)).1.conversation_history
           = s.conversation_history ++ [⟨"user", message, tu⟩]) ∧
    ((processStream events "").response_content ≠ "" →
       (∃ pre, (send_message_sync s message tu ta (NetResult.resp 200 events)).2
           = pre ++ [Event.append
                       ⟨"assistant", (processStream events "").response_content, ta⟩,
                     Event.cb (processStream events "").response_content true,
                     Event.setGen false]) ∧
       (send_message_sync s message tu ta (NetResult.resp 200 events)).1.conversation_history
           = s.conversation_history
             ++ [⟨"user", message, tu⟩,
                 ⟨"assistant", (processStream events "").response_content, ta⟩]) := by
  constructor
  · intro he
    rw [send_eq_empty s message tu ta events h hr he]
    refine ⟨⟨Event.append ⟨"user", message, tu⟩ :: Event.setGen true ::
      Event.request (build_payload (s.current_model.getD "")
        (s.conversation_history ++ [⟨"user", message, tu⟩]))
      :: (processStream events "").events, ?_⟩, rfl⟩
    simp
  · intro hne
    rw [send_eq_ok s message tu ta events h hr hne]
    refine ⟨⟨Event.append ⟨"user", message, tu⟩ :: Event.setGen true ::
      Event.request (build_payload (s.current_model.getD "")
        (s.conversation_history ++ [⟨"user", message, tu⟩]))
      :: (processStream events "").events, ?_⟩, by simp⟩
    simp

/-- Witness for C4: the empty-completion case on a `done`-only stream and
the non-empty case on a two-chunk stream, at concrete inputs. -/
theorem stream_completion_spec_witness :
    ((send_message_sync ⟨"h", some "m", [], false⟩ "hi" "t1" "t2"
        (NetResult.resp 200 [StreamEvent.line (StreamLine.parsed none true)])).1.conversation_history
      = [⟨"user", "hi", "t1"⟩]) ∧
    ((send_message_sync ⟨"h", some "m", [], false⟩ "hi" "t1" "t2"
        (NetResult.resp 200
          [StreamEvent.line (StreamLine.parsed (some "Hel") false),
           StreamEvent.line (StreamLine.parsed (some "lo") false),
           StreamEvent.line (StreamLine.parsed none true)])).1.conversation_history
      = [⟨"user", "hi", "t1"⟩, ⟨"assistant", "Hello", "t2"⟩]) := by
  constructor
  · exact ((stream_completion_spec ⟨"h", some "m", [], false⟩ "hi" "t1" "t2"
      [StreamEvent.line (StreamLine.parsed none true)] rfl rfl).1 rfl).2
  · exact ((stream_completion_spec ⟨"h", some "m", [], false⟩ "hi" "t1" "t2"
      [StreamEvent.line (StreamLine.parsed (some "Hel") false),
       StreamEvent.line (StreamLine.parsed (some "lo") false),
       StreamEvent.line (StreamLine.parsed none true)] rfl rfl).2 (by decide)).2

/-! ### Claim C5: the generating flag (corrected) -/

theorem setGen_false_not_mem_map_cb (ps : List String) :
    Event.setGen false ∉ ps.map fun p => Event.cb p false := by
  simp

/-- Counterexample to C5 as stated: on a successful turn the
`_is_generating` flag is still `true` at the moment the terminal callback
returns (event index 5 of the trace); it is reset only by the following
event. -/
theorem generating_reset_counterexample :
    (send_message_sync ⟨"h", some "m", [], false⟩ "hi" "t1" "t2"
        (NetResult.resp 200 [StreamEvent.line (StreamLine.parsed (some "Hi") true)])).2
      = [Event.append ⟨"user", "hi", "t1"⟩, Event.setGen true,
         Event.request ⟨"m", [("user", "hi")], true⟩,
         Event.cb "Hi" false,
         Event.append ⟨"assistant", "Hi", "t2"⟩,
         Event.cb "Hi" true, Event.setGen false] ∧
    genAfter false ((send_message_sync ⟨"h", some "m", [], false⟩ "hi" "t1" "t2"
        (NetResult.resp 200
          [StreamEvent.line (StreamLine.parsed (some "Hi") true)])).2.take 6) = true := by
  constructor
  · decide
  · decide

/-- C5 (amended): for every turn that reaches the streaming phase
(success, empty response, HTTP status error, transport error),
`_is_generating` is set to `false` exactly once, as the event immediately
after the terminal callback — so the flag is still `true` when the
terminal callback returns, and is `false` once the turn completes. -/
theorem generating_reset (s : OllamaChatService) (message tu ta : String)
    (net : NetResult) (h : falsy_model s.current_model = false) :
    ∃ pre lastp,
      (send_message_sync s message tu ta net).2
          = pre ++ [Event.cb lastp true, Event.setGen false] ∧
      Event.setGen false ∉ pre ∧
      genAfter s._is_generating (pre ++ [Event.cb lastp true]) = true ∧
      genAfter s._is_generating (send_message_sync s message tu ta net).2 = false ∧
      (send_message_sync s message tu ta net).1._is_generating = false := by
  cases net with
  | connectError d =>
      rw [send_eq_connectError s message tu ta d h]
      refine ⟨[Event.append ⟨"user", message, tu⟩, Event.setGen true],
        "Streaming error: " ++ d, by simp, by simp, rfl, rfl, rfl⟩
  | resp status events =>
      by_cases hst : status = 200
      · subst hst
        obtain ⟨ps, hev, -, -, -, -⟩ := processStream_spec events ""
        rcases hraised : (processStream events "").raised with _ | d
        · by_cases he : (processStream events "").response_content = ""
          · rw [send_eq_empty s message tu ta events h hraised he]
            refine ⟨Event.append ⟨"user", message, tu⟩ :: Event.setGen true ::
              Event.request (build_payload (s.current_model.getD "")
                (s.conversation_history ++ [⟨"user", message, tu⟩]))
              :: (processStream events "").events,
              "Error: Empty response from model", by simp, ?_, ?_, ?_, rfl⟩
            · rw [hev]
              simp [setGen_false_not_mem_map_cb]
            · rw [hev]
              simp [genAfter_append, genAfter_map_cb, genAfter_cons_append,
                genAfter_cons_setGen, genAfter_cons_request, genAfter_cons_cb, genAfter_nil]
            · rw [hev]
              simp [genAfter_append, genAfter_map_cb, genAfter_cons_append,
                genAfter_cons_setGen, genAfter_cons_request, genAfter_cons_cb, genAfter_nil]
          · rw [send_eq_ok s message tu ta events h hraised he]
            refine ⟨Event.append ⟨"user", message, tu⟩ :: Event.setGen true ::
              Event.request (build_payload (s.current_model.getD "")
                (s.conversation_history ++ [⟨"user", message, tu⟩]))
              :: (processStream events "").events
              ++ [Event.append ⟨"assistant", (processStream events "").response_content, ta⟩],
              (processStream events "").response_content, by simp, ?_, ?_, ?_, rfl⟩
            · rw [hev]
              simp [setGen_false_not_mem_map_cb]
            · rw [hev]
              simp [genAfter_append, genAfter_map_cb, genAfter_cons_append,
                genAfter_cons_setGen, genAfter_cons_request, genAfter_cons_cb, genAfter_nil]
            · rw [hev]
              simp [genAfter_append, genAfter_map_cb, genAfter_cons_append,
                genAfter_cons_setGen, genAfter_cons_request, genAfter_cons_cb, genAfter_nil]
        · rw [send_eq_raised s message tu ta d events h hraised]
          refine ⟨Event.append ⟨"user", message, tu⟩ :: Event.setGen true ::
            Event.request (build_payload (s.current_model.getD "")
              (s.conversation_history ++ [⟨"user", message, tu⟩]))
            :: (processStream events "").events,
            "Streaming error: " ++ d, by simp, ?_, ?_, ?_, rfl⟩
          · rw [hev]
            simp [setGen_false_not_mem_map_cb]
          · rw [hev]
            simp [genAfter_append, genAfter_map_cb, genAfter_cons_append,
              genAfter_cons_setGen, genAfter_cons_request, genAfter_cons_cb, genAfter_nil]
          · rw [hev]
            simp [genAfter_append, genAfter_map_cb, genAfter_cons_append,
              genAfter_cons_setGen, genAfter_cons_request, genAfter_cons_cb, genAfter_nil]
      · rw [send_eq_status s message tu ta status events h hst]
        refine ⟨[Event.append ⟨"user", message, tu⟩, Event.setGen true,
          Event.request (build_payload (s.current_model.getD "")
            (s.conversation_history ++ [⟨"user", message, tu⟩]))],
          "Error: Server returned status " ++ toString status,
          by simp, by simp, rfl, rfl, rfl⟩

/-- Witness for C5 (amended) at a concrete successful turn. -/
theorem generating_reset_witness :
    ∃ pre lastp,
      (send_message_sync ⟨"h", some "m", [], false⟩ "hi" "t1" "t2"
          (NetResult.resp 200
            [StreamEvent.line (StreamLine.parsed (some "Hi") true)])).2
          = pre ++ [Event.cb lastp true, Event.setGen false] ∧
      Event.setGen false ∉ pre ∧
      genAfter false (pre ++ [Event.cb lastp true]) = true ∧
      genAfter false (send_message_sync ⟨"h", some "m", [], false⟩ "hi" "t1" "t2"
          (NetResult.resp 200
            [StreamEvent.line (StreamLine.parsed (some "Hi") true)])).2 = false ∧
      (send_message_sync ⟨"h", some "m", [], false⟩ "hi" "t1" "t2"
          (NetResult.resp 200
            [StreamEvent.line (StreamLine.parsed (some "Hi") true)])).1._is_generating
        = false :=
  generating_reset ⟨"h", some "m", [], false⟩ "hi" "t1" "t2"
    (NetResult.resp 200 [StreamEvent.line (StreamLine.parsed (some "Hi") true)]) rfl

/-! ### Claim C10: timestamps never reach the request payload -/

/-- Two messages that agree on role and content, differing at most in
their timestamps. -/
def role_content_eq (a b : ChatMessage) : Prop :=
  a.role = b.role ∧ a.content = b.content

theorem to_dict_eq_of_role_content {h1 h2 : List ChatMessage}
    (h : List.Forall₂ role_content_eq h1 h2) :
    h1.map ChatMessage.to_dict = h2.map ChatMessage.to_dict := by
  induction h with
  | nil => rfl
  | cons hab htl ih => simp [ChatMessage.to_dict, hab.1, hab.2, ih]

/-- C10: the request payload serialises each history message as role and
content only, so two turns whose histories (and freshly appended user
messages) differ only in timestamps issue identical request payloads. -/
theorem payload_ignores_timestamps (s1 s2 : OllamaChatService)
    (message tu1 tu2 ta1 ta2 : String) (net : NetResult)
    (hm : s1.current_model = s2.current_model)
    (hh : List.Forall₂ role_content_eq s1.conversation_history s2.conversation_history) :
    requestEvents (send_message_sync s1 message tu1 ta1 net).2
      = requestEvents (send_message_sync s2 message tu2 ta2 net).2 := by
  have hpay : build_payload (s1.current_model.getD "")
        (s1.conversation_history ++ [⟨"user", message, tu1⟩])
      = build_payload (s2.current_model.getD "")
        (s2.conversation_history ++ [⟨"user", message, tu2⟩]) := by
    unfold build_payload
    rw [hm]
    have hcons : List.Forall₂ role_content_eq
        (s1.conversation_history ++ [⟨"user", message, tu1⟩])
        (s2.conversation_history ++ [⟨"user", message, tu2⟩]) :=
      List.rel_append hh (List.Forall₂.cons ⟨rfl, rfl⟩ List.Forall₂.nil)
    rw [to_dict_eq_of_role_content hcons]
  cases hfm : falsy_model s1.current_model with
  | true =>
      have hfm2 : falsy_model s2.current_model = true := by rw [← hm]; exact hfm
      rw [send_eq_noModel s1 message tu1 ta1 net hfm,
        send_eq_noModel s2 message tu2 ta2 net hfm2]
  | false =>
      have hfm2 : falsy_model s2.current_model = false := by rw [← hm]; exact hfm
      cases net with
      | connectError d =>
          rw [send_eq_connectError s1 message tu1 ta1 d hfm,
            send_eq_connectError s2 message tu2 ta2 d hfm2]
          rfl
      | resp status events =>
          by_cases hst : status = 200
          · subst hst
            obtain ⟨ps, hev, -, -, -, -⟩ := processStream_spec events ""
            rcases hraised : (processStream events "").raised with _ | d
            · by_cases he : (processStream events "").response_content = ""
              · rw [send_eq_empty s1 message tu1 ta1 events hfm hraised he,
                  send_eq_empty s2 message tu2 ta2 events hfm2 hraised he, hpay]
                simp [requestEvents_cons_append, requestEvents_cons_setGen,
                  requestEvents_cons_request, requestEvents_cons_cb, requestEvents_append,
                  requestEvents_nil, hev, requestEvents_map_cb]
              · rw [send_eq_ok s1 message tu1 ta1 events hfm hraised he,
                  send_eq_ok s2 message tu2 ta2 events hfm2 hraised he, hpay]
                simp [requestEvents_cons_append, requestEvents_cons_setGen,
                  requestEvents_cons_request, requestEvents_cons_cb, requestEvents_append,
                  requestEvents_nil, hev, requestEvents_map_cb]
            · rw [send_eq_raised s1 message tu1 ta1 d events hfm hraised,
                send_eq_raised s2 message tu2 ta2 d events hfm2 hraised, hpay]
              simp [requestEvents_cons_append, requestEvents_cons_setGen,
                requestEvents_cons_request, requestEvents_cons_cb, requestEvents_append,
                requestEvents_nil, hev, requestEvents_map_cb]
          · rw [send_eq_status s1 message tu1 ta1 status events hfm hst,
              send_eq_status s2 message tu2 ta2 status events hfm2 hst, hpay]
            rfl

/-- Witness for C10: two histories equal up to timestamps issue the same
request payloads. -/
theorem payload_ignores_timestamps_witness :
    requestEvents (send_message_sync
        ⟨"h", some "m", [⟨"system", "p", "09:00:00"⟩], false⟩ "hi" "t1" "t2"
        (NetResult.resp 200 [StreamEvent.line (StreamLine.parsed (some "Hi") true)])).2
      = requestEvents (send_message_sync
        ⟨"h", some "m", [⟨"system", "p", "17:30:00"⟩], false⟩ "hi" "u1" "u2"
        (NetResult.resp 200 [StreamEvent.line (StreamLine.parsed (some "Hi") true)])).2 :=
  payload_ignores_timestamps
    ⟨"h", some "m", [⟨"system", "p", "09:00:00"⟩], false⟩
    ⟨"h", some "m", [⟨"system", "p", "17:30:00"⟩], false⟩
    "hi" "t1" "u1" "t2" "u2"
    (NetResult.resp 200 [StreamEvent.line (StreamLine.parsed (some "Hi") true)])
    rfl (List.Forall₂.cons ⟨rfl, rfl⟩ List.Forall₂.nil)

end OssChat
